import Mathlib

/-!
Verification of the blitzutils data model (`models.py`) and replay
synchronization client (`wotinspector.py`).

Each Python function used by a claim is embedded as a Lean definition with
the same name.  Python `int` is embedded as `Int` (or `Nat` where the claim
restricts to unsigned values), `None` as `Option.none`, and a raised
exception as an `Option.none` result of the embedded function.
-/

/-- Embedding of `class Region(str, Enum)` from `models.py`.  The string
payloads play no role in the verified behaviour, so the enumeration is
embedded by its members alone. -/
inductive Region where
  | ru
  | eu
  | com
  | asia
  | china
  | API
deriving DecidableEq, Repr, Fintype

/-- Embedding of `Region.API_regions()`: returns `[eu, com, asia, ru]`. -/
def Region.API_regions : List Region := [Region.eu, Region.com, Region.asia, Region.ru]

/-- Embedding of `Region.from_id` (`models.py` lines 40-55).  The Python
comparisons `account_id >= 31e8` etc. compare an `int` against the exactly
representable floats `31e8 = 3100000000.0`, `20e8`, `10e8` and `5e8`;
Python int-to-float comparison is exact, so they are embedded as the
corresponding integer comparisons.  No branch of the chain can raise for an
`int` argument, so the `except`/`raise ValueError` path is unreachable and
the function always returns a region (`some`). -/
def Region.from_id (account_id : Int) : Option Region :=
  if 3100000000 ≤ account_id then some Region.china
  else if 2000000000 ≤ account_id then some Region.asia
  else if 1000000000 ≤ account_id then some Region.com
  else if 500000000 ≤ account_id then some Region.eu
  else some Region.ru

/-- Embedding of `Region.matches` (`models.py` lines 58-66). -/
def Region.matches (self other_region : Region) : Bool :=
  if self = other_region then true
  else if self = Region.API then other_region ∈ Region.API_regions
  else if other_region = Region.API then self ∈ Region.API_regions
  else false

/-- Claim C5: for every non-negative id, `Region.from_id` returns exactly the
threshold bucket containing the id: china for id ≥ 3.1e9, asia for
2e9 ≤ id < 3.1e9, com for 1e9 ≤ id < 2e9, eu for 5e8 ≤ id < 1e9 and ru for
id < 5e8; the five buckets partition the non-negative domain. -/
theorem c5_from_id_buckets (account_id : Int) (hnn : 0 ≤ account_id) :
    (Region.from_id account_id = some Region.china ↔ 3100000000 ≤ account_id) ∧
    (Region.from_id account_id = some Region.asia ↔
      2000000000 ≤ account_id ∧ account_id < 3100000000) ∧
    (Region.from_id account_id = some Region.com ↔
      1000000000 ≤ account_id ∧ account_id < 2000000000) ∧
    (Region.from_id account_id = some Region.eu ↔
      500000000 ≤ account_id ∧ account_id < 1000000000) ∧
    (Region.from_id account_id = some Region.ru ↔ account_id < 500000000) := by
  unfold Region.from_id
  split_ifs with h1 h2 h3 h4 <;>
    refine ⟨?_, ?_, ?_, ?_, ?_⟩ <;> simp_all <;> omega

/-- Witness for C5 at the concrete id 2100000000: it lies in the asia
bucket. -/
theorem c5_from_id_buckets_witness :
    Region.from_id 2100000000 = some Region.asia ∧
    (2000000000 ≤ (2100000000 : Int) ∧ (2100000000 : Int) < 3100000000) := by
  refine ⟨((c5_from_id_buckets 2100000000 (by decide)).2.1).mpr (by decide), by decide⟩

/-- Claim C6 (code bug evidence): for the out-of-domain id `-1` the code
does not report a classification failure; it silently returns the default
region `ru`.  The dead `except`-branch of `Region.from_id`, whose message
says the account id is "out of known id range", shows failure was the
intent, but the comparison chain cannot raise on an `int`, so every
negative id falls through to `ru`. -/
theorem c6_from_id_negative_silent_default :
    Region.from_id (-1) = some Region.ru ∧ Region.from_id (-5000000000) = some Region.ru := by
  constructor <;> rfl

/-- Claim C9: `Region.matches` is reflexive; `API` matches each of eu, com,
asia, ru in either argument position; `API` and `china` do not match in
either order; two distinct non-API regions never match. -/
theorem c9_matches_spec :
    (∀ r : Region, r.matches r = true) ∧
    (∀ r ∈ Region.API_regions, Region.API.matches r = true ∧ r.matches Region.API = true) ∧
    (Region.API.matches Region.china = false ∧ Region.china.matches Region.API = false) ∧
    (∀ a b : Region, a ≠ b → a ≠ Region.API → b ≠ Region.API → a.matches b = false) := by
  refine ⟨by decide, by decide, by decide, ?_⟩
  decide

/-- Witness for C9's distinct-non-API clause at the concrete pair (ru, eu). -/
theorem c9_matches_spec_witness : Region.ru.matches Region.eu = false :=
  c9_matches_spec.2.2.2 Region.ru Region.eu (by decide) (by decide) (by decide)

/-- Embedding of `EnumWinnerTeam` (`models.py` lines 69-72). -/
inductive EnumWinnerTeam where
  | draw
  | one
  | two
deriving DecidableEq, Repr

/-- Embedding of `EnumBattleResult` (`models.py` lines 74-79). -/
inductive EnumBattleResult where
  | incomplete
  | not_win
  | win
  | loss
  | draw
deriving DecidableEq, Repr

/-- Embedding of `WoTBlitzReplayDetail` (`models.py` lines 101-148),
restricted to the two fields the perspective queries read: the required
participant id `dbid` (alias `ai`) and the optional platoon index
`squad_index` (alias `sq`).  The remaining fields are independent optional
combat statistics that no verified function reads. -/
structure WoTBlitzReplayDetail where
  dbid : Int
  squad_index : Option Int
deriving DecidableEq, Repr

/-- Embedding of `WoTBlitzReplaySummary` (`models.py` lines 151-213),
restricted to the fields the perspective queries read: `winner_team` (alias
`wt`, nullable), `battle_result` (alias `br`, nullable), the two rosters
`allies` and `enemies`, and the per-participant `details` rows.  The other
fields are metadata that no verified function reads. -/
structure WoTBlitzReplaySummary where
  winner_team : Option EnumWinnerTeam
  battle_result : Option EnumBattleResult
  allies : List Int
  enemies : List Int
  details : List WoTBlitzReplayDetail
deriving DecidableEq, Repr

/-- Embedding of `WoTBlitzReplayData` (`models.py` lines 216-253): the two
URLs (nullable, embedded as their string values), the optional id and the
wrapped summary. -/
structure WoTBlitzReplayData where
  view_url : Option String
  download_url : Option String
  id : Option String
  summary : WoTBlitzReplaySummary
deriving DecidableEq, Repr

/-- Embedding of `WoTBlitzReplayJSON` (`models.py` lines 256-416): top-level
id (alias `_id`), `status` and the wrapped `data`. -/
structure WoTBlitzReplayJSON where
  id : Option String
  status : String
  data : WoTBlitzReplayData
deriving DecidableEq, Repr

/-- Embedding of `WoTBlitzReplayJSON.get_enemies` (`models.py` lines
352-358).  The raised `ValueError` for a player in neither roster is
embedded as `none`. -/
def WoTBlitzReplayJSON.get_enemies (self : WoTBlitzReplayJSON)
    (player : Option Int := none) : Option (List Int) :=
  match player with
  | none => some self.data.summary.enemies
  | some p =>
    if p ∈ self.data.summary.allies then some self.data.summary.enemies
    else if p ∈ self.data.summary.enemies then some self.data.summary.allies
    else none

/-- Embedding of `WoTBlitzReplayJSON.get_allies` (`models.py` lines
361-367).  The raised `ValueError` for a player in neither roster is
embedded as `none`. -/
def WoTBlitzReplayJSON.get_allies (self : WoTBlitzReplayJSON)
    (player : Option Int := none) : Option (List Int) :=
  match player with
  | none => some self.data.summary.allies
  | some p =>
    if p ∈ self.data.summary.allies then some self.data.summary.allies
    else if p ∈ self.data.summary.enemies then some self.data.summary.enemies
    else none

/-- `get_enemies()` with the default `player=None` is the raw enemies
roster; `get_battle_result` relies on this. -/
theorem WoTBlitzReplayJSON.get_enemies_none (self : WoTBlitzReplayJSON) :
    self.get_enemies none = some self.data.summary.enemies := rfl

/-- `get_allies()` with the default `player=None` is the raw allies
roster; `get_battle_result` relies on this. -/
theorem WoTBlitzReplayJSON.get_allies_none (self : WoTBlitzReplayJSON) :
    self.get_allies none = some self.data.summary.allies := rfl

/-- Embedding of `WoTBlitzReplayJSON.get_battle_result` (`models.py` lines
392-416).  The Python `elif` chain tests
`player is not None and player in self.get_enemies()` and then
`player is None or player in self.get_allies()`; since both parenthesised
calls use the default `player=None` they are exactly the raw rosters (see
`get_enemies_none` / `get_allies_none`), so the chain is embedded as a
match on `player` with roster-membership tests, preserving the branch
order (enemies checked before allies).  No operation inside the `try`
block can raise, so the `except` path is unreachable. -/
def WoTBlitzReplayJSON.get_battle_result (self : WoTBlitzReplayJSON)
    (player : Option Int := none) : EnumBattleResult :=
  if self.data.summary.battle_result = some EnumBattleResult.incomplete then
    EnumBattleResult.incomplete
  else
    match player with
    | some p =>
      if p ∈ self.data.summary.enemies then
        if self.data.summary.battle_result = some EnumBattleResult.win then
          EnumBattleResult.loss
        else if self.data.summary.winner_team = some EnumWinnerTeam.draw then
          EnumBattleResult.draw
        else EnumBattleResult.win
      else if p ∈ self.data.summary.allies then
        if self.data.summary.battle_result = some EnumBattleResult.win then
          EnumBattleResult.win
        else if self.data.summary.winner_team = some EnumWinnerTeam.draw then
          EnumBattleResult.draw
        else EnumBattleResult.loss
      else EnumBattleResult.incomplete
    | none =>
      if self.data.summary.battle_result = some EnumBattleResult.win then
        EnumBattleResult.win
      else if self.data.summary.winner_team = some EnumWinnerTeam.draw then
        EnumBattleResult.draw
      else EnumBattleResult.loss

/-- Claim C2: `get_battle_result(p)` returns incomplete whenever the raw
battle result is incomplete; otherwise, for p in the enemies roster it
returns loss when the raw value is win, draw when winner_team is draw and
win otherwise; for p absent or in the allies roster (and not in enemies)
it returns win when the raw value is win, draw when winner_team is draw
and loss otherwise; and incomplete when p is in neither roster. -/
theorem c2_get_battle_result (r : WoTBlitzReplayJSON) (p : Option Int) :
    (r.data.summary.battle_result = some EnumBattleResult.incomplete →
      r.get_battle_result p = EnumBattleResult.incomplete) ∧
    (r.data.summary.battle_result ≠ some EnumBattleResult.incomplete →
      (∀ pid, p = some pid → pid ∈ r.data.summary.enemies →
        r.get_battle_result p =
          (if r.data.summary.battle_result = some EnumBattleResult.win then
            EnumBattleResult.loss
          else if r.data.summary.winner_team = some EnumWinnerTeam.draw then
            EnumBattleResult.draw
          else EnumBattleResult.win)) ∧
      ((p = none ∨ ∃ pid, p = some pid ∧ pid ∉ r.data.summary.enemies ∧
          pid ∈ r.data.summary.allies) →
        r.get_battle_result p =
          (if r.data.summary.battle_result = some EnumBattleResult.win then
            EnumBattleResult.win
          else if r.data.summary.winner_team = some EnumWinnerTeam.draw then
            EnumBattleResult.draw
          else EnumBattleResult.loss)) ∧
      (∀ pid, p = some pid → pid ∉ r.data.summary.enemies →
          pid ∉ r.data.summary.allies →
        r.get_battle_result p = EnumBattleResult.incomplete)) := by
  unfold WoTBlitzReplayJSON.get_battle_result
  refine ⟨fun h => by simp [h], fun hne => ⟨?_, ?_, ?_⟩⟩
  · rintro pid rfl hmem
    simp [hne, hmem]
  · rintro (rfl | ⟨pid, rfl, hnotE, hA⟩)
    · simp [hne]
    · simp [hne, hnotE, hA]
  · rintro pid rfl hnotE hnotA
    simp [hne, hnotE, hnotA]

/-- Witness for C2 at a concrete replay: raw result win, winner_team one,
perspective of enemy participant 2 yields loss. -/
theorem c2_get_battle_result_witness :
    WoTBlitzReplayJSON.get_battle_result
      { id := none, status := "ok",
        data := { view_url := none, download_url := none, id := none,
                  summary := { winner_team := some EnumWinnerTeam.one,
                               battle_result := some EnumBattleResult.win,
                               allies := [1], enemies := [2],
                               details := [] } } }
      (some 2) = EnumBattleResult.loss := by
  have h := (c2_get_battle_result
      { id := none, status := "ok",
        data := { view_url := none, download_url := none, id := none,
                  summary := { winner_team := some EnumWinnerTeam.one,
                               battle_result := some EnumBattleResult.win,
                               allies := [1], enemies := [2],
                               details := [] } } }
      (some 2)).2 (by decide)
  simpa using h.1 2 rfl (by decide)

/-- Embedding of `defaultdict(list)`: the empty platoon grouping, every
platoon index mapped to the empty member list. -/
def emptyPlatoons : Int → List Int := fun _ => []

/-- Embedding of `platoons[squad_index].append(account_id)` on a
`defaultdict(list)` grouping. -/
def addToPlatoon (g : Int → List Int) (k v : Int) : Int → List Int :=
  fun j => if j = k then g j ++ [v] else g j

/-- Embedding of one iteration of the `for d in self.data.summary.details`
loop body of `get_platoons` (`models.py` lines 381-387): rows with a
positive `squad_index` are appended to the allied grouping when `dbid` is
in the resolved ally roster and to the enemy grouping otherwise. -/
def platoonStep (allies : List Int)
    (acc : (Int → List Int) × (Int → List Int)) (d : WoTBlitzReplayDetail) :
    (Int → List Int) × (Int → List Int) :=
  match d.squad_index with
  | some sq =>
    if 0 < sq then
      if d.dbid ∈ allies then (addToPlatoon acc.1 sq d.dbid, acc.2)
      else (acc.1, addToPlatoon acc.2 sq d.dbid)
    else acc
  | none => acc

/-- Embedding of `WoTBlitzReplayJSON.get_platoons` (`models.py` lines
374-389).  The `ValueError` raised by `self.get_allies(player)` propagates,
embedded as `none`; otherwise the detail rows are folded through
`platoonStep` starting from two empty groupings, returning the pair
(allied_platoons, enemy_platoons). -/
def WoTBlitzReplayJSON.get_platoons (self : WoTBlitzReplayJSON)
    (player : Option Int := none) :
    Option ((Int → List Int) × (Int → List Int)) :=
  (self.get_allies player).map (fun allies =>
    self.data.summary.details.foldl (platoonStep allies) (emptyPlatoons, emptyPlatoons))

/-- Selector for the rows `get_platoons` actually groups: platoon index
positive and equal to `k`, with ally-roster membership of the participant
equal to `ally`. -/
def platoonRowFilter (allies : List Int) (ally : Bool) (k : Int)
    (d : WoTBlitzReplayDetail) : Bool :=
  match d.squad_index with
  | some sq => decide (0 < sq) && decide (sq = k) && (decide (d.dbid ∈ allies) == ally)
  | none => false

/-- The participant ids of the detail rows selected by `platoonRowFilter`,
in document order. -/
def platoonRows (details : List WoTBlitzReplayDetail) (allies : List Int)
    (ally : Bool) (k : Int) : List Int :=
  (details.filter (platoonRowFilter allies ally k)).map WoTBlitzReplayDetail.dbid

/-- Unfolding lemma for the `get_platoons` fold: at every platoon index the
fold appends exactly the filtered rows to the incoming accumulator. -/
theorem platoonStep_foldl (allies : List Int) (k : Int) :
    ∀ (details : List WoTBlitzReplayDetail)
      (acc : (Int → List Int) × (Int → List Int)),
    ((details.foldl (platoonStep allies) acc).1 k
        = acc.1 k ++ platoonRows details allies true k) ∧
    ((details.foldl (platoonStep allies) acc).2 k
        = acc.2 k ++ platoonRows details allies false k) := by
  intro details
  induction details with
  | nil => intro acc; simp [platoonRows]
  | cons d ds ih =>
    intro acc
    rcases hsq : d.squad_index with _ | sq
    · simpa [List.foldl_cons, platoonStep, hsq, platoonRows, platoonRowFilter]
        using ih acc
    · by_cases hpos : 0 < sq
      · by_cases hmem : d.dbid ∈ allies
        · have h := ih (addToPlatoon acc.1 sq d.dbid, acc.2)
          by_cases hk : sq = k
          · subst hk
            simp [List.foldl_cons, platoonStep, hsq, hpos, hmem, platoonRows,
              platoonRowFilter, addToPlatoon, List.filter_cons] at h ⊢
            exact ⟨h.1, h.2⟩
          · simp [List.foldl_cons, platoonStep, hsq, hpos, hmem, platoonRows,
              platoonRowFilter, addToPlatoon, hk, Ne.symm hk, List.filter_cons] at h ⊢
            exact ⟨h.1, h.2⟩
        · have h := ih (acc.1, addToPlatoon acc.2 sq d.dbid)
          by_cases hk : sq = k
          · subst hk
            simp [List.foldl_cons, platoonStep, hsq, hpos, hmem, platoonRows,
              platoonRowFilter, addToPlatoon, List.filter_cons] at h ⊢
            exact ⟨h.1, h.2⟩
          · simp [List.foldl_cons, platoonStep, hsq, hpos, hmem, platoonRows,
              platoonRowFilter, addToPlatoon, hk, Ne.symm hk, List.filter_cons] at h ⊢
            exact ⟨h.1, h.2⟩
      · simpa [List.foldl_cons, platoonStep, hsq, hpos, platoonRows,
          platoonRowFilter] using ih acc

/-- Claim C3 counterexample: in a battle with allies `[1]`, enemies `[2]`
and a single detail row for participant 3 — found in neither roster — with
platoon index 1, `get_platoons` (neutral perspective) does not exclude the
row from both groupings as the claim states: the row lands in the enemy
grouping under index 1, so the groupings at index 1 are `([], [3])` rather
than the claimed `([], [])`. -/
theorem c3_get_platoons_counterexample :
    (WoTBlitzReplayJSON.get_platoons
      { id := none, status := "ok",
        data := { view_url := none, download_url := none, id := none,
                  summary := { winner_team := some EnumWinnerTeam.one,
                               battle_result := some EnumBattleResult.win,
                               allies := [1], enemies := [2],
                               details := [{ dbid := 3, squad_index := some 1 }] } } }
      none).map (fun g => (g.1 1, g.2 1)) = some ([], [3]) := by
  rfl

/-- Claim C3 as amended: whenever the ally roster resolves for perspective
`p`, `get_platoons` groups exactly the detail rows with strictly positive
platoon index, keyed by that index; a row goes to the allied grouping when
its participant id is in the resolved ally roster and to the enemy
grouping otherwise — in particular a row whose participant is in neither
roster is not skipped but grouped with the enemies. -/
theorem c3_get_platoons_amended (r : WoTBlitzReplayJSON) (p : Option Int)
    (allies : List Int) (h : r.get_allies p = some allies) (k : Int) :
    (r.get_platoons p).map (fun g => (g.1 k, g.2 k)) =
      some (platoonRows r.data.summary.details allies true k,
            platoonRows r.data.summary.details allies false k) := by
  have hfold := platoonStep_foldl allies k r.data.summary.details
    (emptyPlatoons, emptyPlatoons)
  have hempty : emptyPlatoons k = [] := rfl
  dsimp only at hfold
  rw [hempty, List.nil_append, List.nil_append] at hfold
  unfold WoTBlitzReplayJSON.get_platoons
  rw [h]
  simp only [Option.map_some']
  rw [hfold.1, hfold.2]

/-- Witness for C3's amended theorem at a concrete replay: the unknown
participant 3 with platoon index 1 is grouped as an enemy, ally 1 with
platoon index 1 as an ally, and a row with platoon index 0 is ignored. -/
theorem c3_get_platoons_amended_witness :
    (WoTBlitzReplayJSON.get_platoons
      { id := none, status := "ok",
        data := { view_url := none, download_url := none, id := none,
                  summary := { winner_team := some EnumWinnerTeam.one,
                               battle_result := some EnumBattleResult.win,
                               allies := [1], enemies := [2],
                               details := [{ dbid := 1, squad_index := some 1 },
                                           { dbid := 2, squad_index := some 0 },
                                           { dbid := 3, squad_index := some 1 }] } } }
      none).map (fun g => (g.1 1, g.2 1)) = some ([1], [3]) := by
  have h := c3_get_platoons_amended
    { id := none, status := "ok",
      data := { view_url := none, download_url := none, id := none,
                summary := { winner_team := some EnumWinnerTeam.one,
                             battle_result := some EnumBattleResult.win,
                             allies := [1], enemies := [2],
                             details := [{ dbid := 1, squad_index := some 1 },
                                         { dbid := 2, squad_index := some 0 },
                                         { dbid := 3, squad_index := some 1 }] } } }
    none [1] rfl 1
  simpa [platoonRows, platoonRowFilter, List.filter] using h

/-- Claim C10: for a perspective participant found in neither roster, the
ally-roster resolution fails and `get_platoons` propagates that failure
(the Python `ValueError` from `get_allies`) instead of returning a
grouping. -/
theorem c10_get_platoons_unknown_perspective (r : WoTBlitzReplayJSON) (p : Int)
    (h1 : p ∉ r.data.summary.allies) (h2 : p ∉ r.data.summary.enemies) :
    r.get_allies (some p) = none ∧ r.get_platoons (some p) = none := by
  have hall : r.get_allies (some p) = none := by
    unfold WoTBlitzReplayJSON.get_allies
    simp [h1, h2]
  refine ⟨hall, ?_⟩
  unfold WoTBlitzReplayJSON.get_platoons
  rw [hall]
  rfl

/-- Witness for C10 at a concrete replay: participant 9 is in neither
roster, so both the roster resolution and the platoon query fail. -/
theorem c10_get_platoons_unknown_perspective_witness :
    WoTBlitzReplayJSON.get_allies
      { id := none, status := "ok",
        data := { view_url := none, download_url := none, id := none,
                  summary := { winner_team := some EnumWinnerTeam.one,
                               battle_result := some EnumBattleResult.win,
                               allies := [1], enemies := [2],
                               details := [{ dbid := 3, squad_index := some 1 }] } } }
      (some 9) = none ∧
    WoTBlitzReplayJSON.get_platoons
      { id := none, status := "ok",
        data := { view_url := none, download_url := none, id := none,
                  summary := { winner_team := some EnumWinnerTeam.one,
                               battle_result := some EnumBattleResult.win,
                               allies := [1], enemies := [2],
                               details := [{ dbid := 3, squad_index := some 1 }] } } }
      (some 9) = none :=
  c10_get_platoons_unknown_perspective
    { id := none, status := "ok",
      data := { view_url := none, download_url := none, id := none,
                summary := { winner_team := some EnumWinnerTeam.one,
                             battle_result := some EnumBattleResult.win,
                             allies := [1], enemies := [2],
                             details := [{ dbid := 3, squad_index := some 1 }] } } }
    9 (by decide) (by decide)

/-- Lower-case hex digit character for a digit value, as produced by
Python's `hex()`: 0-9 map to '0'-'9' (codes 48+d) and 10-15 to 'a'-'f'
(codes 87+d). -/
def hexChar (d : Nat) : Char :=
  if d < 10 then Char.ofNat (48 + d) else Char.ofNat (87 + d)

/-- Fuel-driven little-endian base-16 digit expansion; with fuel ≥ n it
computes the hex digits of n (empty for 0). -/
def toHexAux : Nat → Nat → List Nat
  | 0, _ => []
  | fuel + 1, n => if n = 0 then [] else n % 16 :: toHexAux fuel (n / 16)

/-- Little-endian base-16 digits of `n` (empty for 0). -/
def toHexDigits (n : Nat) : List Nat := toHexAux n n

/-- Embedding of Python `hex(n)[2:]` for a non-negative `n`: the lower-case
hex representation without the `0x` prefix ("0" for 0, no leading zeros
otherwise). -/
def pyHex (n : Nat) : String :=
  if n = 0 then "0" else String.mk (((toHexDigits n).map hexChar).reverse)

/-- Embedding of Python `str.zfill(width)` for a digit string: left-pad
with '0' to at least `width` characters (never truncates). -/
def zfill (s : String) (width : Nat) : String :=
  String.mk (List.replicate (width - s.data.length) '0' ++ s.data)

/-- A character bson's `ObjectId` accepts in a 24-character hex string. -/
def isHexDigitChar (c : Char) : Bool :=
  (('0' ≤ c) && (c ≤ '9')) || (('a' ≤ c) && (c ≤ 'f')) || (('A' ≤ c) && (c ≤ 'F'))

/-- Embedding of the `bson.objectid.ObjectId(str)` constructor: accepts
exactly the 24-character hex strings, raising `InvalidId` (embedded as
`none`) on any other string. -/
def ObjectId.ofString (s : String) : Option String :=
  if s.data.length = 24 ∧ s.data.all isHexDigitChar then some s else none

/-- Embedding of `WGtankStat` (`models.py` lines 455-500), restricted to the
fields `set_id`/`mk_id` read: the optional `id` (alias `_id`, embedded as
the ObjectId hex string), the optional `_region`, and the three key
components.  The statistics payload fields are never read by the verified
functions. -/
structure WGtankStat where
  id : Option String
  region : Option Region
  last_battle_time : Nat
  account_id : Nat
  tank_id : Nat
deriving DecidableEq, Repr

/-- Embedding of `WGtankStat.mk_id` (`models.py` lines 478-480):
`ObjectId(hex(account_id)[2:].zfill(10) + hex(tank_id)[2:].zfill(6) +
hex(last_battle_time)[2:].zfill(8))`.  The Python argument order
(account_id, last_battle_time, tank_id) is kept.  `ObjectId` raises
(embedded as `none`) when the concatenation is not exactly 24 hex
characters, which happens exactly when a component overflows its
segment width. -/
def WGtankStat.mk_id (account_id last_battle_time : Nat) (tank_id : Nat := 0) : Option String :=
  ObjectId.ofString
    (zfill (pyHex account_id) 10 ++ zfill (pyHex tank_id) 6 ++ zfill (pyHex last_battle_time) 8)

/-- Embedding of the `WGtankStat.set_id` root validator (`models.py` lines
483-492): when no `id` was supplied it is derived with `mk_id` (a raised
`InvalidId` propagating as `ValueError`, embedded as `none`); then a
missing `_region` is derived with `Region.from_id`. -/
def WGtankStat.set_id (values : WGtankStat) : Option WGtankStat :=
  (match values.id with
   | some _ => some values
   | none =>
     (WGtankStat.mk_id values.account_id values.last_battle_time values.tank_id).map
       (fun i => { values with id := some i })).map
    (fun (v : WGtankStat) =>
      match v.region with
      | some _ => v
      | none => { v with region := Region.from_id (v.account_id : Int) })

/-- Numeric value of a hex digit character (inverse of `hexChar` on
digits), used by the fixed-width decoding of the composite key. -/
def hexVal (c : Char) : Nat :=
  if 97 ≤ c.toNat then c.toNat - 87
  else if 65 ≤ c.toNat then c.toNat - 55
  else c.toNat - 48

/-- Big-endian numeric value of a hex character list. -/
def ofHexChars (l : List Char) : Nat :=
  l.foldl (fun acc c => 16 * acc + hexVal c) 0

/-- Decoding of the 24-hex-digit composite tank-stat key into its three
fixed-width segments: 10 hex digits of account_id, 6 of tank_id, 8 of
last_battle_time. -/
def split_id (s : String) : Nat × Nat × Nat :=
  (ofHexChars (s.data.take 10),
   ofHexChars ((s.data.drop 10).take 6),
   ofHexChars (s.data.drop 16))

/-- With enough fuel, `toHexAux` computes `Nat.digits 16`. -/
theorem toHexAux_eq_digits : ∀ (fuel n : Nat), n ≤ fuel → toHexAux fuel n = Nat.digits 16 n := by
  intro fuel
  induction fuel with
  | zero =>
    intro n hn
    interval_cases n
    simp [toHexAux]
  | succ f ih =>
    intro n hn
    by_cases h0 : n = 0
    · subst h0; simp [toHexAux]
    · have hpos : 0 < n := Nat.pos_of_ne_zero h0
      rw [Nat.digits_def' (by norm_num : (1:ℕ) < 16) hpos]
      unfold toHexAux
      rw [if_neg h0, ih (n / 16) (by
        have : n / 16 < n := Nat.div_lt_self hpos (by norm_num)
        omega)]

/-- `toHexDigits` is `Nat.digits 16`. -/
theorem toHexDigits_eq_digits (n : Nat) : toHexDigits n = Nat.digits 16 n :=
  toHexAux_eq_digits n n le_rfl

/-- `hexVal` inverts `hexChar` on digit values. -/
theorem hexVal_hexChar : ∀ d < 16, hexVal (hexChar d) = d := by decide

/-- `hexChar` of a digit value is a hex character. -/
theorem isHexDigitChar_hexChar : ∀ d < 16, isHexDigitChar (hexChar d) = true := by decide

/-- Character data of `pyHex` for a nonzero value: the base-16 digits,
most significant first. -/
theorem pyHex_data (n : Nat) (hn : n ≠ 0) :
    (pyHex n).data = ((Nat.digits 16 n).map hexChar).reverse := by
  unfold pyHex
  rw [if_neg hn, toHexDigits_eq_digits]

/-- A value below `16 ^ w` (with `w ≥ 1`) has at most `w` hex digits. -/
theorem pyHex_length_le (n w : Nat) (hw : 1 ≤ w) (h : n < 16 ^ w) :
    (pyHex n).data.length ≤ w := by
  by_cases hn : n = 0
  · subst hn
    simpa [pyHex] using hw
  · rw [pyHex_data n hn, List.length_reverse, List.length_map,
      Nat.digits_len 16 n (by norm_num) hn]
  -- remaining goal: Nat.log 16 n + 1 ≤ w
    have := (Nat.lt_pow_iff_log_lt (by norm_num : 1 < 16) hn).mp h
    omega

/-- A value at least `16 ^ w` (with `w ≥ 1`) has more than `w` hex digits. -/
theorem pyHex_length_gt (n w : Nat) (h : 16 ^ w ≤ n) :
    w < (pyHex n).data.length := by
  have hp : 0 < 16 ^ w := Nat.pow_pos (by norm_num)
  have hn : n ≠ 0 := by omega
  rw [pyHex_data n hn, List.length_reverse, List.length_map,
    Nat.digits_len 16 n (by norm_num) hn]
  have hnlt : ¬ n < 16 ^ w := by omega
  have hlog : ¬ Nat.log 16 n < w :=
    fun hc => hnlt ((Nat.lt_pow_iff_log_lt (by norm_num : 1 < 16) hn).mpr hc)
  omega

/-- `zfill` pads up to the width and never truncates. -/
theorem zfill_length (s : String) (w : Nat) :
    (zfill s w).data.length = max w s.data.length := by
  unfold zfill
  simp [List.length_append, List.length_replicate]
  omega

/-- Every character of a zero-filled `pyHex` string is a hex character. -/
theorem zfill_pyHex_all_hex (n w : Nat) :
    ∀ c ∈ (zfill (pyHex n) w).data, isHexDigitChar c = true := by
  intro c hc
  unfold zfill at hc
  simp only [String.data] at hc
  rcases List.mem_append.mp hc with hrep | hdat
  · rw [List.eq_of_mem_replicate hrep]
    decide
  · by_cases hn : n = 0
    · subst hn
      simp [pyHex] at hdat
      subst hdat
      decide
    · rw [pyHex_data n hn] at hdat
      rcases List.mem_map.mp (List.mem_reverse.mp hdat) with ⟨d, hd, rfl⟩
      exact isHexDigitChar_hexChar d (Nat.digits_lt_base (by norm_num) hd)

/-- Folding the hex-value accumulator over leading '0' padding leaves the
accumulated value unchanged when it starts at zero. -/
theorem hexFoldl_replicate_zero (k : Nat) (l : List Char) :
    List.foldl (fun acc c => 16 * acc + hexVal c) 0 (List.replicate k '0' ++ l) =
      List.foldl (fun acc c => 16 * acc + hexVal c) 0 l := by
  induction k with
  | zero => rfl
  | succ m ih =>
    rw [List.replicate_succ, List.cons_append, List.foldl_cons]
    simpa [hexVal] using ih

/-- Folding the hex-value accumulator over the reversed character image of
a digit list recovers its positional value. -/
theorem hexFoldl_reverse_map (L : List Nat) (hL : ∀ d ∈ L, d < 16) (a : Nat) :
    List.foldl (fun acc c => 16 * acc + hexVal c) a ((L.map hexChar).reverse) =
      a * 16 ^ L.length + Nat.ofDigits 16 L := by
  induction L generalizing a with
  | nil => simp [Nat.ofDigits_nil]
  | cons d L' ih =>
    rw [List.map_cons, List.reverse_cons, List.foldl_append, List.foldl_cons,
      List.foldl_nil]
    rw [ih (fun x hx => hL x (List.mem_cons_of_mem d hx)) a]
    rw [hexVal_hexChar d (hL d (List.mem_cons_self d L'))]
    rw [Nat.ofDigits_cons]
    simp only [List.length_cons, pow_succ]
    ring

/-- Decoding a `w`-wide zero-filled hex rendering of `n < 16 ^ w` recovers
`n`. -/
theorem ofHexChars_zfill_pyHex (n w : Nat) (h : n < 16 ^ w) :
    ofHexChars (zfill (pyHex n) w).data = n := by
  unfold ofHexChars zfill
  simp only [String.data]
  rw [hexFoldl_replicate_zero]
  by_cases hn : n = 0
  · subst hn
    decide
  · rw [pyHex_data n hn,
      hexFoldl_reverse_map (Nat.digits 16 n)
        (fun d hd => Nat.digits_lt_base (by norm_num) hd) 0,
      Nat.ofDigits_digits]
    ring

/-- Claim C1: for unsigned components within their segment widths
(account_id < 2^40, tank_id < 2^24, last_battle_time < 2^32), `mk_id`
returns the 24-hex-digit concatenation of account_id zero-padded to 10 hex
digits, tank_id to 6 and last_battle_time to 8, and splitting that value
back into the fixed-width segments recovers the exact triple; when any
component exceeds its width, `mk_id` fails at construction (the embedded
`ObjectId` rejects the over-long string) instead of truncating. -/
theorem c1_mk_id_roundtrip (account_id tank_id last_battle_time : Nat) :
    (account_id < 2 ^ 40 → tank_id < 2 ^ 24 → last_battle_time < 2 ^ 32 →
      WGtankStat.mk_id account_id last_battle_time tank_id =
        some (zfill (pyHex account_id) 10 ++ zfill (pyHex tank_id) 6 ++
          zfill (pyHex last_battle_time) 8) ∧
      ∀ s, WGtankStat.mk_id account_id last_battle_time tank_id = some s →
        s.length = 24 ∧ split_id s = (account_id, tank_id, last_battle_time)) ∧
    (2 ^ 40 ≤ account_id ∨ 2 ^ 24 ≤ tank_id ∨ 2 ^ 32 ≤ last_battle_time →
      WGtankStat.mk_id account_id last_battle_time tank_id = none) := by
  have hdata : (zfill (pyHex account_id) 10 ++ zfill (pyHex tank_id) 6 ++
      zfill (pyHex last_battle_time) 8).data =
      (zfill (pyHex account_id) 10).data ++ (zfill (pyHex tank_id) 6).data ++
      (zfill (pyHex last_battle_time) 8).data := by
    rw [String.data_append, String.data_append]
  constructor
  · intro ha ht hl
    have ha' : account_id < 16 ^ 10 := by norm_num at ha ⊢; omega
    have ht' : tank_id < 16 ^ 6 := by norm_num at ht ⊢; omega
    have hl' : last_battle_time < 16 ^ 8 := by norm_num at hl ⊢; omega
    have la : (zfill (pyHex account_id) 10).data.length = 10 := by
      rw [zfill_length]
      have := pyHex_length_le account_id 10 (by norm_num) ha'
      omega
    have lt6 : (zfill (pyHex tank_id) 6).data.length = 6 := by
      rw [zfill_length]
      have := pyHex_length_le tank_id 6 (by norm_num) ht'
      omega
    have ll8 : (zfill (pyHex last_battle_time) 8).data.length = 8 := by
      rw [zfill_length]
      have := pyHex_length_le last_battle_time 8 (by norm_num) hl'
      omega
    have hlen : (zfill (pyHex account_id) 10 ++ zfill (pyHex tank_id) 6 ++
        zfill (pyHex last_battle_time) 8).data.length = 24 := by
      rw [hdata]
      simp [List.length_append, la, lt6, ll8]
    have hhex : (zfill (pyHex account_id) 10 ++ zfill (pyHex tank_id) 6 ++
        zfill (pyHex last_battle_time) 8).data.all isHexDigitChar = true := by
      rw [hdata, List.all_eq_true]
      intro c hc
      rcases List.mem_append.mp hc with hc' | hc3
      · rcases List.mem_append.mp hc' with hc1 | hc2
        · exact zfill_pyHex_all_hex account_id 10 c hc1
        · exact zfill_pyHex_all_hex tank_id 6 c hc2
      · exact zfill_pyHex_all_hex last_battle_time 8 c hc3
    have hmk : WGtankStat.mk_id account_id last_battle_time tank_id =
        some (zfill (pyHex account_id) 10 ++ zfill (pyHex tank_id) 6 ++
          zfill (pyHex last_battle_time) 8) := by
      unfold WGtankStat.mk_id ObjectId.ofString
      rw [if_pos ⟨hlen, hhex⟩]
    refine ⟨hmk, ?_⟩
    intro s hs
    rw [hmk] at hs
    have hseq := Option.some.inj hs
    subst hseq
    refine ⟨hlen, ?_⟩
    unfold split_id
    rw [hdata]
    have htake10 : ((zfill (pyHex account_id) 10).data ++ (zfill (pyHex tank_id) 6).data ++
        (zfill (pyHex last_battle_time) 8).data).take 10 =
        (zfill (pyHex account_id) 10).data := by
      rw [List.append_assoc]
      exact List.take_left' la
    have hdrop10 : ((zfill (pyHex account_id) 10).data ++ (zfill (pyHex tank_id) 6).data ++
        (zfill (pyHex last_battle_time) 8).data).drop 10 =
        (zfill (pyHex tank_id) 6).data ++ (zfill (pyHex last_battle_time) 8).data := by
      rw [List.append_assoc, List.drop_left' la]
    have lab : ((zfill (pyHex account_id) 10).data ++ (zfill (pyHex tank_id) 6).data).length
        = 16 := by
      rw [List.length_append, la, lt6]
    have hdrop16 : ((zfill (pyHex account_id) 10).data ++ (zfill (pyHex tank_id) 6).data ++
        (zfill (pyHex last_battle_time) 8).data).drop 16 =
        (zfill (pyHex last_battle_time) 8).data := by
      rw [List.drop_left' lab]
    rw [htake10, hdrop10, hdrop16, List.take_left' lt6]
    rw [ofHexChars_zfill_pyHex account_id 10 ha',
      ofHexChars_zfill_pyHex tank_id 6 ht',
      ofHexChars_zfill_pyHex last_battle_time 8 hl']
  · intro hov
    unfold WGtankStat.mk_id ObjectId.ofString
    rw [if_neg]
    rintro ⟨hlen, -⟩
    rw [hdata] at hlen
    simp only [List.length_append] at hlen
    have ga : 10 ≤ (zfill (pyHex account_id) 10).data.length := by
      rw [zfill_length]; omega
    have gt6 : 6 ≤ (zfill (pyHex tank_id) 6).data.length := by
      rw [zfill_length]; omega
    have gl8 : 8 ≤ (zfill (pyHex last_battle_time) 8).data.length := by
      rw [zfill_length]; omega
    rcases hov with hov | hov | hov
    · have : 10 < (pyHex account_id).data.length :=
        pyHex_length_gt account_id 10 (by norm_num at hov ⊢; omega)
      have hmax : 10 < (zfill (pyHex account_id) 10).data.length := by
        rw [zfill_length]; omega
      omega
    · have : 6 < (pyHex tank_id).data.length :=
        pyHex_length_gt tank_id 6 (by norm_num at hov ⊢; omega)
      have hmax : 6 < (zfill (pyHex tank_id) 6).data.length := by
        rw [zfill_length]; omega
      omega
    · have : 8 < (pyHex last_battle_time).data.length :=
        pyHex_length_gt last_battle_time 8 (by norm_num at hov ⊢; omega)
      have hmax : 8 < (zfill (pyHex last_battle_time) 8).data.length := by
        rw [zfill_length]; omega
      omega

/-- Witness for C1 at the triple (account_id=1, tank_id=2,
last_battle_time=3): the encoding is "0000000001" + "000002" + "00000003"
and decoding recovers the triple. -/
theorem c1_mk_id_roundtrip_witness :
    WGtankStat.mk_id 1 3 2 = some "000000000100000200000003" ∧
    split_id "000000000100000200000003" = (1, 2, 3) := by
  have h := (c1_mk_id_roundtrip 1 2 3).1 (by norm_num) (by norm_num) (by norm_num)
  have h2 := h.2 _ h.1
  have hstr : zfill (pyHex 1) 10 ++ zfill (pyHex 2) 6 ++ zfill (pyHex 3) 8 =
      "000000000100000200000003" := by decide
  rw [hstr] at h h2
  exact ⟨h.1, h2.2⟩

/-- Claim C4 counterexample: a tank-stat payload that supplies its own
`_id` keeps it.  With the triple (account_id=1, tank_id=2,
last_battle_time=3) and the supplied id "aaaaaaaaaaaaaaaaaaaaaaaa", the
validated record carries the supplied id, not
`mk_id(1, 2, 3) = "000000000100000200000003"`, refuting "the identifier
... is never independently assigned ... regardless of any identifier
supplied in the input payload". -/
theorem c4_set_id_counterexample :
    (WGtankStat.set_id
        { id := some "aaaaaaaaaaaaaaaaaaaaaaaa", region := none,
          last_battle_time := 3, account_id := 1, tank_id := 2 }).map WGtankStat.id
      = some (some "aaaaaaaaaaaaaaaaaaaaaaaa") ∧
    WGtankStat.mk_id 1 3 2 = some "000000000100000200000003" ∧
    some "aaaaaaaaaaaaaaaaaaaaaaaa" ≠ some "000000000100000200000003" := by
  refine ⟨rfl, by decide, by decide⟩

/-- Claim C4 as amended: when the payload supplies no identifier, the
validated record's identifier is exactly `mk_id` of its own key fields (so
two such constructions from the same triple carry the same identifier,
and the key fields themselves are unchanged); when the payload supplies an
identifier, that identifier is kept as-is. -/
theorem c4_set_id_amended (v : WGtankStat) :
    (v.id = none → ∀ u, WGtankStat.set_id v = some u →
      u.id = WGtankStat.mk_id v.account_id v.last_battle_time v.tank_id ∧
      u.account_id = v.account_id ∧ u.tank_id = v.tank_id ∧
      u.last_battle_time = v.last_battle_time) ∧
    (∀ i, v.id = some i → ∀ u, WGtankStat.set_id v = some u → u.id = some i) := by
  constructor
  · intro hid u hu
    unfold WGtankStat.set_id at hu
    rw [hid] at hu
    rcases hmk : WGtankStat.mk_id v.account_id v.last_battle_time v.tank_id with _ | i
    · rw [hmk] at hu
      simp at hu
    · rw [hmk] at hu
      simp only [Option.map_some'] at hu
      rcases hreg : v.region with _ | r <;> rw [hreg] at hu <;>
        simp only [Option.map_some', Option.some.injEq] at hu <;> subst hu <;> simp [hmk]
  · intro i hi u hu
    unfold WGtankStat.set_id at hu
    rw [hi] at hu
    simp only [Option.map_some'] at hu
    rcases hreg : v.region with _ | r <;> rw [hreg] at hu <;>
      simp only [Option.map_some', Option.some.injEq] at hu <;> subst hu <;> simp [hi]

/-- Witness for C4's amended theorem: with no supplied id and the triple
(account_id=1, tank_id=2, last_battle_time=3), validation derives exactly
`mk_id(1, 2, 3)`. -/
theorem c4_set_id_amended_witness :
    (WGtankStat.set_id
        { id := none, region := none, last_battle_time := 3,
          account_id := 1, tank_id := 2 }).map WGtankStat.id
      = some (WGtankStat.mk_id 1 3 2) := by
  have hs : WGtankStat.set_id
      { id := none, region := none, last_battle_time := 3,
        account_id := 1, tank_id := 2 } =
      some
        { id := some "000000000100000200000003", region := some Region.ru,
          last_battle_time := 3, account_id := 1, tank_id := 2 } := by decide
  have h := (c4_set_id_amended
      { id := none, region := none, last_battle_time := 3,
        account_id := 1, tank_id := 2 }).1 rfl _ hs
  rw [hs, Option.map_some']
  rw [h.1]

/-- Embedding of Python `str.split(sep)` for a one-character separator,
as used by `store_id` (`url.split('/')`): splits on every occurrence,
keeping empty segments, so the result list is never empty. -/
def splitChar (c : Char) (l : List Char) : List (List Char) :=
  l.foldr
    (fun ch acc =>
      match acc with
      | [] => [[ch]]
      | cur :: rest => if ch = c then [] :: cur :: rest else (ch :: cur) :: rest)
    [[]]

/-- Embedding of `url.split('/')[-1:][0]` from `store_id`: the trailing
path segment of a URL string. -/
def lastSegment (s : String) : String :=
  String.mk ((splitChar '/' s.data).getLastD [])

/-- Embedding of `WoTBlitzReplayData._ViewUrlBase`. -/
def ViewUrlBase : String := "https://replays.wotinspector.com/en/view/"

/-- Embedding of `WoTBlitzReplayData._DLurlBase`. -/
def DLurlBase : String := "https://replays.wotinspector.com/en/download/"

/-- Embedding of the `WoTBlitzReplayData.store_id` root validator
(`models.py` lines 232-253): the id is taken from the explicit `id` field
if present, else from the trailing path segment of `view_url`, else of
`download_url`; if none is present the values are returned unchanged;
otherwise `id` is stored and both URLs are rebuilt from the canonical
bases suffixed with the id.  No reachable operation raises, so the
`except` path is dead. -/
def WoTBlitzReplayData.store_id (values : WoTBlitzReplayData) : WoTBlitzReplayData :=
  match values.id with
  | some i =>
    { values with id := some i, view_url := some (ViewUrlBase ++ i),
                  download_url := some (DLurlBase ++ i) }
  | none =>
    match values.view_url with
    | some u =>
      { values with id := some (lastSegment u),
                    view_url := some (ViewUrlBase ++ lastSegment u),
                    download_url := some (DLurlBase ++ lastSegment u) }
    | none =>
      match values.download_url with
      | some u =>
        { values with id := some (lastSegment u),
                      view_url := some (ViewUrlBase ++ lastSegment u),
                      download_url := some (DLurlBase ++ lastSegment u) }
      | none => values

/-- The claim's three-source resolution priority: the explicit id if
supplied, else the trailing path segment of `view_url`, else the trailing
path segment of `download_url`. -/
def resolvedReplayId (v : WoTBlitzReplayData) : Option String :=
  match v.id with
  | some i => some i
  | none =>
    match v.view_url with
    | some u => some (lastSegment u)
    | none => v.download_url.map lastSegment

/-- Claim C7: replay-record construction resolves the id with the
explicit-id / view_url-segment / download_url-segment priority; when no
source is present construction still succeeds with the identity left
unset and the record unchanged; once an id is resolved all three fields
agree — the id is set and both URLs are rebuilt from the canonical
templates suffixed with it — and the wrapped summary is untouched. -/
theorem c7_store_id_resolution (v : WoTBlitzReplayData) :
    (v.id = none ∧ v.view_url = none ∧ v.download_url = none →
      v.store_id = v ∧ v.store_id.id = none) ∧
    (∀ i, resolvedReplayId v = some i →
      v.store_id.id = some i ∧
      v.store_id.view_url = some (ViewUrlBase ++ i) ∧
      v.store_id.download_url = some (DLurlBase ++ i) ∧
      v.store_id.summary = v.summary) := by
  constructor
  · rintro ⟨h1, h2, h3⟩
    unfold WoTBlitzReplayData.store_id
    rw [h1, h2, h3]
    exact ⟨rfl, h1⟩
  · intro i hi
    unfold resolvedReplayId at hi
    unfold WoTBlitzReplayData.store_id
    rcases hid : v.id with _ | j
    · rw [hid] at hi
      rcases hvu : v.view_url with _ | u
      · rw [hvu] at hi
        rcases hdu : v.download_url with _ | u'
        · rw [hdu] at hi
          simp at hi
        · rw [hdu] at hi
          simp only [Option.map_some', Option.some.injEq] at hi
          subst hi
          exact ⟨rfl, rfl, rfl, rfl⟩
      · rw [hvu] at hi
        simp only [Option.some.injEq] at hi
        subst hi
        exact ⟨rfl, rfl, rfl, rfl⟩
    · rw [hid] at hi
      simp only [Option.some.injEq] at hi
      subst hi
      exact ⟨rfl, rfl, rfl, rfl⟩

/-- Witness for C7 at a record supplying only a `view_url`: the id
back-fills from the trailing segment "abc123" and both URLs are rebuilt
canonically. -/
theorem c7_store_id_resolution_witness :
    (WoTBlitzReplayData.store_id
      { view_url := some "https://replays.wotinspector.com/en/view/abc123",
        download_url := none, id := none,
        summary := { winner_team := none, battle_result := none,
                     allies := [], enemies := [], details := [] } }).id
      = some "abc123" ∧
    (WoTBlitzReplayData.store_id
      { view_url := some "https://replays.wotinspector.com/en/view/abc123",
        download_url := none, id := none,
        summary := { winner_team := none, battle_result := none,
                     allies := [], enemies := [], details := [] } }).view_url
      = some (ViewUrlBase ++ "abc123") ∧
    (WoTBlitzReplayData.store_id
      { view_url := some "https://replays.wotinspector.com/en/view/abc123",
        download_url := none, id := none,
        summary := { winner_team := none, battle_result := none,
                     allies := [], enemies := [], details := [] } }).download_url
      = some (DLurlBase ++ "abc123") := by
  have h := (c7_store_id_resolution
    { view_url := some "https://replays.wotinspector.com/en/view/abc123",
      download_url := none, id := none,
      summary := { winner_team := none, battle_result := none,
                   allies := [], enemies := [], details := [] } }).2
    "abc123" (by decide)
  exact ⟨h.1, h.2.1, h.2.2.1⟩

/-- Embedding of `WoTinspector.MAX_RETRIES` (`wotinspector.py` line 38). -/
def MAX_RETRIES : Nat := 3

/-- Embedding of `WoTinspector.get_replay` (`wotinspector.py` lines 63-72):
one rate-limited GET of the info endpoint parsed as a replay record.  The
throttled transport and JSON parsing are external collaborators, embedded
as the oracle `fetch`; any transport error or parse failure is `none`. -/
def WoTinspector.get_replay (fetch : String → Option WoTBlitzReplayJSON)
    (replay_id : String) : Option WoTBlitzReplayJSON :=
  fetch replay_id

/-- Embedding of the retry loop of `post_replay` (`wotinspector.py` lines
107-127): up to `retries` upload attempts, stopping at the first attempt
whose response is HTTP 200 with a parseable body.  `upload n` is the
outcome of the n-th issued upload request (`none` = non-200 status,
exception, or unparsable body); the pair returned is the loop's result
together with the number of upload requests issued. -/
def uploadLoop (upload : Nat → Option WoTBlitzReplayJSON) :
    Nat → Nat → Option WoTBlitzReplayJSON × Nat
  | 0, count => (none, count)
  | retries + 1, count =>
    match upload count with
    | some replay => (some replay, count + 1)
    | none => uploadLoop upload retries (count + 1)

/-- Embedding of `WoTinspector.post_replay` (`wotinspector.py` lines
75-127): the md5 digest of the payload bytes (external collaborator,
embedded as the oracle `md5hex`) is the candidate replay id; the replay is
first fetched by that id, and an existing record is returned immediately
with zero upload requests issued; only otherwise does the retry loop issue
uploads.  The metadata parameters (filename, account_id, title, priv, N)
only label the request and never influence this control flow. -/
def WoTinspector.post_replay (md5hex : List Nat → String)
    (fetch : String → Option WoTBlitzReplayJSON)
    (upload : Nat → Option WoTBlitzReplayJSON)
    (data : List Nat) : Option WoTBlitzReplayJSON × Nat :=
  let replay_id := md5hex data
  match WoTinspector.get_replay fetch replay_id with
  | some json_resp => (some json_resp, 0)
  | none => uploadLoop upload MAX_RETRIES 0

/-- Claim C8: whenever fetching the replay by the digest of the payload
bytes already returns a record, `post_replay` issues zero upload requests
and returns that record unchanged; conversely any run that issued an
upload request had a digest lookup that returned no record. -/
theorem c8_post_replay_idempotent (md5hex : List Nat → String)
    (fetch : String → Option WoTBlitzReplayJSON)
    (upload : Nat → Option WoTBlitzReplayJSON) (data : List Nat) :
    (∀ r, fetch (md5hex data) = some r →
      WoTinspector.post_replay md5hex fetch upload data = (some r, 0)) ∧
    (∀ res n, WoTinspector.post_replay md5hex fetch upload data = (res, n) →
      0 < n → fetch (md5hex data) = none) := by
  constructor
  · intro r hr
    unfold WoTinspector.post_replay WoTinspector.get_replay
    simp only []
    rw [hr]
  · intro res n hpost hn
    rcases hf : fetch (md5hex data) with _ | r
    · rfl
    · unfold WoTinspector.post_replay WoTinspector.get_replay at hpost
      simp only [] at hpost
      rw [hf] at hpost
      simp only [Prod.mk.injEq] at hpost
      omega

/-- Witness for C8 with a concrete digest oracle and remote state: the
digest "d" of the payload already resolves to a record, so `post_replay`
returns it with zero uploads even though the upload oracle would succeed. -/
theorem c8_post_replay_idempotent_witness :
    WoTinspector.post_replay (fun _ => "d")
      (fun s =>
        if s = "d" then
          some { id := some "d", status := "ok",
                 data := { view_url := none, download_url := none, id := some "d",
                           summary := { winner_team := none, battle_result := none,
                                        allies := [], enemies := [], details := [] } } }
        else none)
      (fun _ =>
        some { id := some "u", status := "ok",
               data := { view_url := none, download_url := none, id := some "u",
                         summary := { winner_team := none, battle_result := none,
                                      allies := [], enemies := [], details := [] } } })
      [1, 2, 3]
      = (some { id := some "d", status := "ok",
                data := { view_url := none, download_url := none, id := some "d",
                          summary := { winner_team := none, battle_result := none,
                                       allies := [], enemies := [], details := [] } } }, 0) :=
  (c8_post_replay_idempotent (fun _ => "d")
    (fun s =>
      if s = "d" then
        some { id := some "d", status := "ok",
               data := { view_url := none, download_url := none, id := some "d",
                         summary := { winner_team := none, battle_result := none,
                                      allies := [], enemies := [], details := [] } } }
      else none)
    (fun _ =>
      some { id := some "u", status := "ok",
             data := { view_url := none, download_url := none, id := some "u",
                       summary := { winner_team := none, battle_result := none,
                                    allies := [], enemies := [], details := [] } } })
    [1, 2, 3]).1 _ (by decide)
